import Mathlib

/-!
# Verification of the express-seed auth core

Shallow embedding of the repository's auth controller
(`app/components/auth/strategies/local.js`) and user model
(`app/components/user/user.model.js`), with theorems settling the
spec claims about token grants, authorization middleware, password
hashing, name canonicalization and unique-handle generation.
-/

namespace ExpressSeed

/-- Typed errors raised by the auth core, from
`meanie-express-error-handling` as used in `local.js` and
`user.model.js`. -/
inductive AppError
  | notAuthenticated
  | userSuspended
  | notAuthorized
  | serverError (msg : String)
  | validationError (field : String) (reason : String)
  deriving DecidableEq, Repr

/-- A user document, restricted to the fields the auth core reads:
`_id`, `roles`, `isSuspended` (`user.model.js` schema). ObjectIds are
modelled as naturals. -/
structure User where
  _id : Nat
  roles : List String
  isSuspended : Bool
  deriving DecidableEq, Repr

/-- Source `UserSchema.methods.hasRole`: `this.roles.includes(role)`. -/
def User.hasRole (u : User) (role : String) : Bool :=
  u.roles.contains role

/-- JWT claims as built by the auth controller: `getClaims` yields
`{id, roles}` and the token handler may attach `secureStatus`. -/
structure Claims where
  id : String
  roles : List String
  secureStatus : Option Nat := none
  deriving DecidableEq, Repr

/-- Source `UserSchema.methods.getClaims`:
`{id: this._id.toString(), roles: this.roles}` (no `secureStatus`). -/
def User.getClaims (u : User) : Claims :=
  { id := Nat.repr u._id, roles := u.roles }

/-- A signed token as produced by `jwt.generate(type, claims)`: the
signing itself is opaque, so a token is modelled as its type tag
together with the claims it carries. -/
structure Token where
  kind : String
  claims : Claims
  deriving DecidableEq, Repr

/-- The `jwt.generate` call from `meanie-express-jwt-service`, modelled as the
pairing of token type and claims. -/
def jwtGenerate (kind : String) (claims : Claims) : Token :=
  ⟨kind, claims⟩

/-- A cookie written with `res.cookie(name, value, opts)`. -/
structure Cookie where
  name : String
  value : Token
  maxAge : Nat
  secure : Bool
  httpOnly : Bool
  deriving DecidableEq, Repr

/-- The successful response of the token endpoint: the body
`{accessToken}` plus the optional `refreshToken` cookie. -/
structure AuthResponse where
  accessToken : Token
  cookie : Option Cookie
  deriving DecidableEq, Repr

/-- The grant types the `switch` in `token(req, res, next)` dispatches;
any other grant type invokes no strategy at all. -/
def handledGrantTypes : List String :=
  ["bearer", "password", "refreshToken"]

/-- The `authCallback` closure of `token(req, res, next)` in
`local.js`: given the request-derived values (`grantType`, `remember`,
`secureStatus`, app locals, `req.secure`) and the strategy outcome
(`error`, `user`), it either forwards a typed error to `next` or sends
the response.

Order of checks as in the source: error, missing user, suspension;
then claims are built, `secureStatus` is attached only for a
`password` grant that requested it, the access token is minted, and a
refresh cookie is set only when `remember` was requested. -/
def authCallback (grantType : String) (remember secureStatus : Bool)
    (now expiration cookieMaxAge : Nat) (reqSecure : Bool)
    (error : Bool) (user : Option User) : Except AppError AuthResponse :=
  if error then .error .notAuthenticated
  else
    match user with
    | none => .error .notAuthenticated
    | some u =>
      if u.isSuspended then .error .userSuspended
      else
        let baseClaims := u.getClaims
        let claims :=
          if secureStatus && grantType == "password" then
            { baseClaims with secureStatus := some (now + expiration) }
          else baseClaims
        let accessToken := jwtGenerate "access" claims
        let cookie : Option Cookie :=
          if remember then
            some ⟨"refreshToken", jwtGenerate "refresh" u.getClaims,
                  cookieMaxAge * 1000, reqSecure, true⟩
          else none
        .ok ⟨accessToken, cookie⟩

/-- The `ensureAuthenticated(...roles)` middleware from `local.js`:
missing principal, then suspension, then role check (skipped when no
roles were given). -/
def ensureAuthenticated (roles : List String) (user : Option User) :
    Except AppError Unit :=
  match user with
  | none => .error .notAuthenticated
  | some u =>
    if u.isSuspended then .error .userSuspended
    else if roles.length ≠ 0 && !(roles.any u.hasRole) then
      .error .notAuthorized
    else .ok ()

/-- The value found at `item[propKey]`: either a raw ObjectId
reference or a populated document carrying an `_id` ObjectId. -/
inductive PropVal
  | raw (id : Nat)
  | populated (id : Nat)
  deriving DecidableEq, Repr

/-- The id the `belongsTo` guard compares against: `prop` itself, or
`prop._id` when `prop` is a populated object with an ObjectId `_id`. -/
def PropVal.resolveId : PropVal → Nat
  | .raw id => id
  | .populated id => id

/-- An owner entity loaded into the request (`req[ownerKey]`); the
guard only reads its `_id`. -/
structure OwnerEnt where
  _id : Nat
  deriving DecidableEq, Repr

/-- An item entity loaded into the request (`req[itemKey]`), modelled
as its property map (the guard only reads `item[propKey]`). -/
abbrev ItemEnt := List (String × PropVal)

/-- Outcome of an express middleware call in this model: `next()`
with no argument, `next(err)` with a typed error, or an uncaught
JavaScript `TypeError` thrown synchronously inside the middleware. -/
inductive MwOutcome
  | next
  | nextErr (e : AppError)
  | jsTypeError
  deriving DecidableEq, Repr

/-- The test `roles.some(role => user.hasRole(role))` from the `belongsTo`
guard, with JavaScript semantics: `Array.prototype.some` never invokes
the callback on an empty array, so `req.me === undefined` only raises
a `TypeError` when the roles array is non-empty. Returns the result of
the `if` guard or the thrown `TypeError`. -/
def rolesBypass (roles : Option (List String)) (me : Option User) :
    Except Unit Bool :=
  match roles with
  | none => .ok false
  | some [] => .ok false
  | some rs =>
    match me with
    | none => .error ()
    | some u => .ok (rs.any u.hasRole)

/-- The middleware returned by `belongsTo` in `local.js`, with the
prop key already resolved. Check order as in the source: role bypass,
owner presence, item presence, `item[propKey]` presence, then identity
comparison of `owner._id` against the resolved owner reference. -/
def belongsToMw (itemKey ownerKey : String) (roles : Option (List String))
    (propKey : String) (me : Option User) (owner : Option OwnerEnt)
    (item : Option ItemEnt) : MwOutcome :=
  match rolesBypass roles me with
  | .error () => .jsTypeError
  | .ok true => .next
  | .ok false =>
    match owner with
    | none =>
      .nextErr (.serverError
        ("Owner of type " ++ ownerKey ++ " has not been loaded"))
    | some o =>
      match item with
      | none =>
        .nextErr (.serverError
          ("Item of type " ++ itemKey ++ " has not been loaded"))
      | some it =>
        match it.lookup propKey with
        | none =>
          .nextErr (.serverError
            ("Item of type " ++ itemKey ++ " has no " ++ propKey ++
              " property"))
        | some prop =>
          if o._id = prop.resolveId then .next
          else .nextErr .notAuthorized

/-- The prop-key resolution of `belongsTo(itemKey, ownerKey, propKey,
roles)`: an explicit key wins; otherwise `ownerKey === 'me'` defaults
to `'user'`; otherwise setup throws. -/
def resolvePropKey (ownerKey : String) (propKey : Option String) :
    Option String :=
  match propKey with
  | some k => some k
  | none => if ownerKey = "me" then some "user" else none

/-- Source `belongsTo(itemKey, ownerKey, propKey, roles)` after its argument
normalization: resolves the prop key (throwing at setup time when none
can be found) and returns the guard middleware. -/
def belongsTo (itemKey ownerKey : String) (propKey : Option String)
    (roles : Option (List String)) :
    Except String
      (Option User → Option OwnerEnt → Option ItemEnt → MwOutcome) :=
  match resolvePropKey ownerKey propKey with
  | none => .error "Missing prop key and unknown owner key"
  | some pk => .ok (belongsToMw itemKey ownerKey roles pk)

/-! ## User model (`user.model.js`) -/

/-- First substitution in `cleanName`: `replace(/\'/g, '’')`. -/
def replaceApos (c : Char) : Char :=
  if c = '\'' then '’' else c

/-- Second substitution in `cleanName`: `replace(/—/g, '-')`. -/
def replaceDash (c : Char) : Char :=
  if c = '—' then '-' else c

/-- Character kept by the third step of `cleanName`:
`replace(/[\\\/]/g, '')` removes backslashes and forward slashes. -/
def keepChar (c : Char) : Bool :=
  c ≠ '\\' && c ≠ '/'

/-- Source `UserSchema.statics.cleanName` on a character list: the three
global `replace` calls in source order (all three patterns are
single-character, so each call is a character-wise map or filter). -/
def cleanNameList (s : List Char) : List Char :=
  ((s.map replaceApos).map replaceDash).filter keepChar

/-- Source `UserSchema.statics.cleanName`. -/
def cleanName (s : String) : String :=
  ⟨cleanNameList s.data⟩

/-- Source `UserSchema.statics.createFullName`:
`String(firstName + ' ' + lastName).trim()`. -/
def createFullName (firstName lastName : String) : String :=
  (firstName ++ " " ++ lastName).trim

/-- The draw `Math.floor(Math.random() * 100) + 1` from `uniqueUsername`, with
the `Math.random()` draw `x ∈ [0,1)` taken as input (modelled as a
rational). -/
def jsRandomInt (x : ℚ) : Nat :=
  (⌊x * 100⌋).toNat + 1

/-- JavaScript's `toLowerCase()`, as a character-wise lowercase map
over the string's characters. -/
def strToLower (s : String) : String :=
  ⟨s.data.map Char.toLower⟩

/-- The candidate list built by `UserSchema.statics.uniqueUsername`:
`[name, name+random(), ...]` (five suffixed variants), with the
lowercased email `unshift`ed to the front when an email is present.
`name` is `String(firstName + lastName).toLowerCase()`. -/
def usernameCandidates (email : Option String)
    (firstName lastName : String) (x1 x2 x3 x4 x5 : ℚ) : List String :=
  let name := strToLower (firstName ++ lastName)
  let base : List String :=
    [name,
     name ++ Nat.repr (jsRandomInt x1),
     name ++ Nat.repr (jsRandomInt x2),
     name ++ Nat.repr (jsRandomInt x3),
     name ++ Nat.repr (jsRandomInt x4),
     name ++ Nat.repr (jsRandomInt x5)]
  match email with
  | some e => strToLower e :: base
  | none => base

/-- Source `UserSchema.statics.uniqueUsername`: query persistence for the
candidates already taken (`find({username: {$in: usernames}})` over
the `existing` usernames), return the first candidate not among them,
and throw (`Unable to find unique username for user`) when every
candidate is taken. -/
def uniqueUsername (email : Option String) (firstName lastName : String)
    (x1 x2 x3 x4 x5 : ℚ) (existing : List String) :
    Except String String :=
  let usernames := usernameCandidates email firstName lastName x1 x2 x3 x4 x5
  let users := existing.filter (fun u => usernames.contains u)
  match usernames.find? (fun u => !(users.contains u)) with
  | some u => .ok u
  | none => .error "Unable to find unique username for user"

/-- Modelled from the spec: the `bcrypt` hashing primitive is an
external dependency (no source under `src/`), so a stored hash is
modelled abstractly as the salt paired with the password it hashes
(spec 4.2: salted one-way hash with a configurable cost factor). -/
structure BcryptHash where
  salt : Nat
  pwd : String
  deriving DecidableEq, Repr

/-- Modelled from the spec: `bcrypt.hash(password, salt)`. -/
def bcryptHash (salt : Nat) (password : String) : BcryptHash :=
  ⟨salt, password⟩

/-- Modelled from the spec: `bcrypt.compare(candidate, storedHash)`
succeeds exactly when the candidate is the hashed password. -/
def bcryptCompare (candidate : String) (h : BcryptHash) : Bool :=
  candidate == h.pwd

/-- The password-hashing `pre('save')` hook of `user.model.js`: skip
when the password field was not modified, fail with a `ValidationError`
when the modified password is falsy (empty), otherwise replace the raw
password by its bcrypt hash. Returns the stored hash (or `none` when
hashing was skipped). -/
def hashPasswordHook (isModified : Bool) (password : String)
    (salt : Nat) : Except AppError (Option BcryptHash) :=
  if !isModified then .ok none
  else if password = "" then
    .error (.validationError "password" "required")
  else .ok (some (bcryptHash salt password))

/-- Source `UserSchema.methods.comparePassword`:
`bcrypt.compare(candidatePassword, this.password)`. -/
def comparePassword (candidate : String) (stored : BcryptHash) : Bool :=
  bcryptCompare candidate stored

/-- The plain-object form of a user document handed to the `toJSON`
transform (`ret`); fields beyond those the transform touches are kept
to show they survive serialization. -/
structure UserJSON where
  _id : Option String
  firstName : Option String
  lastName : Option String
  fullName : Option String
  email : Option String
  username : Option String
  password : Option String
  roles : List String
  isSuspended : Option Bool
  deriving DecidableEq, Repr

/-- Source `UserSchema.options.toJSON.transform`: delete `ret.password` and
`ret.fullName`, leave everything else as is. -/
def toJSONTransform (ret : UserJSON) : UserJSON :=
  { ret with password := none, fullName := none }

/-! ## Theorems -/

/-- C2: a resolved credential with `isSuspended = true` makes the
grant orchestrator fail with `UserSuspendedError` for every grant
type and request flags (never success, never `NotAuthorizedError`),
and `ensureAuthenticated` reports `UserSuspendedError` for a suspended
principal whatever roles were demanded (suspension is checked before
the role check). -/
theorem suspended_takes_precedence
    (grantType : String) (remember secureStatus : Bool)
    (now expiration cookieMaxAge : Nat) (reqSecure : Bool)
    (u : User) (roles : List String) (hs : u.isSuspended = true) :
    authCallback grantType remember secureStatus now expiration
      cookieMaxAge reqSecure false (some u) = .error .userSuspended
    ∧ ensureAuthenticated roles (some u) = .error .userSuspended := by
  constructor
  · simp [authCallback, hs]
  · simp [ensureAuthenticated, hs]

/-- Witness for C2: a suspended admin-less user is rejected with
`UserSuspendedError` by a password grant and by
`ensureAuthenticated('admin')`. -/
theorem suspended_takes_precedence_witness :
    authCallback "password" true true 5 10 60 true false
      (some ⟨1, ["user"], true⟩) = .error .userSuspended
    ∧ ensureAuthenticated ["admin"] (some ⟨1, ["user"], true⟩) =
        .error .userSuspended :=
  suspended_takes_precedence "password" true true 5 10 60 true
    ⟨1, ["user"], true⟩ ["admin"] rfl

/-- C6: the serialized (JSON) representation of a user never contains
the password hash nor the derived full name: the `toJSON` transform
removes both fields. -/
theorem toJSON_hides_password_and_fullName (ret : UserJSON) :
    (toJSONTransform ret).password = none
    ∧ (toJSONTransform ret).fullName = none :=
  ⟨rfl, rfl⟩

/-- C7: hashing a non-empty raw password at save time and then
comparing the same raw password against the stored hash succeeds. -/
theorem compare_after_hash (p : String) (salt : Nat) (hp : p ≠ "") :
    hashPasswordHook true p salt = .ok (some (bcryptHash salt p))
    ∧ comparePassword p (bcryptHash salt p) = true := by
  constructor
  · simp [hashPasswordHook, hp]
  · simp [comparePassword, bcryptCompare, bcryptHash]

/-- Witness for C7 at the concrete password `"hunter2"`. -/
theorem compare_after_hash_witness :
    hashPasswordHook true "hunter2" 12 =
      .ok (some (bcryptHash 12 "hunter2"))
    ∧ comparePassword "hunter2" (bcryptHash 12 "hunter2") = true :=
  compare_after_hash "hunter2" 12 (by decide)

/-- C1: for a grant handled by the token endpoint, the minted access
token's claims carry `secureStatus` iff the request asked for
secure-status elevation and the grant type is `password` (so never for
`refreshToken`/`bearer`), and when present the value is the current
time plus the configured `SECURE_STATUS_EXPIRATION` window. -/
theorem access_token_secure_status
    (grantType : String) (remember secureStatus : Bool)
    (now expiration cookieMaxAge : Nat) (reqSecure : Bool)
    (error : Bool) (user : Option User) (resp : AuthResponse)
    (hgt : grantType ∈ handledGrantTypes)
    (h : authCallback grantType remember secureStatus now expiration
      cookieMaxAge reqSecure error user = .ok resp) :
    ((resp.accessToken.claims.secureStatus).isSome ↔
      secureStatus = true ∧ grantType = "password")
    ∧ (∀ v, resp.accessToken.claims.secureStatus = some v →
        v = now + expiration)
    ∧ (grantType ≠ "password" →
        resp.accessToken.claims.secureStatus = none) := by
  cases error
  case true => simp [authCallback] at h
  case false =>
  cases user with
  | none => simp [authCallback] at h
  | some u =>
    by_cases hs : u.isSuspended = true
    · simp [authCallback, hs] at h
    · by_cases hc : (secureStatus && grantType == "password") = true
      · have hss : secureStatus = true ∧ grantType = "password" := by
          simpa using hc
        simp only [authCallback, Bool.false_eq_true, if_false, hs,
          if_true, hc, Except.ok.injEq] at h
        subst h
        simp [jwtGenerate, hss.1, hss.2]
      · have hss : ¬(secureStatus = true ∧ grantType = "password") := by
          simpa using hc
        simp only [authCallback, Bool.false_eq_true, if_false, hs,
          if_true, hc, Except.ok.injEq] at h
        subst h
        simp [jwtGenerate, User.getClaims, hss]

/-- Witness for C1: a password grant requesting elevation at time 50
with a 300-second window mints an access token whose claims carry
`secureStatus = 350`. -/
theorem access_token_secure_status_witness :
    ("password" ∈ handledGrantTypes
      ∧ authCallback "password" false true 50 300 60 true false
          (some ⟨7, ["user"], false⟩) =
        .ok ⟨⟨"access", ⟨"7", ["user"], some 350⟩⟩, none⟩)
    ∧ ((((⟨⟨"access", ⟨"7", ["user"], some 350⟩⟩, none⟩ :
          AuthResponse).accessToken.claims.secureStatus).isSome ↔
        true = true ∧ "password" = "password")
      ∧ (∀ v, ((⟨⟨"access", ⟨"7", ["user"], some 350⟩⟩, none⟩ :
            AuthResponse).accessToken.claims.secureStatus) = some v →
          v = 50 + 300)
      ∧ ("password" ≠ "password" →
          ((⟨⟨"access", ⟨"7", ["user"], some 350⟩⟩, none⟩ :
            AuthResponse).accessToken.claims.secureStatus) = none)) :=
  ⟨⟨by decide, by rfl⟩,
    access_token_secure_status "password" false true 50 300 60 true
      false (some ⟨7, ["user"], false⟩)
      ⟨⟨"access", ⟨"7", ["user"], some 350⟩⟩, none⟩ (by decide) (by rfl)⟩

/-- C4 counterexample: on a non-TLS request (`req.secure = false`) a
remembered password grant succeeds but the refresh-token cookie is NOT
a secure cookie (`secure = false`), because the source sets
`secure: req.secure`; so the refresh cookie is not always delivered
via a secure cookie as the claim states. -/
theorem refresh_cookie_not_always_secure :
    ((authCallback "password" true false 0 0 3600 false false
        (some ⟨1, ["user"], false⟩)).toOption.bind
      AuthResponse.cookie).map Cookie.secure = some false := by rfl

/-- C4 (amended): every successful grant mints exactly one access
token, returned in the response body only; a refresh-token cookie
exists iff the request asked to be remembered, and that cookie carries
a `refresh` token without `secureStatus`, is http-only, has its
`Secure` flag set from the request's secure flag, and has the
configured max-age (in milliseconds). -/
theorem token_minting_response
    (grantType : String) (remember secureStatus : Bool)
    (now expiration cookieMaxAge : Nat) (reqSecure : Bool)
    (error : Bool) (user : Option User) (resp : AuthResponse)
    (h : authCallback grantType remember secureStatus now expiration
      cookieMaxAge reqSecure error user = .ok resp) :
    resp.accessToken.kind = "access"
    ∧ ((resp.cookie).isSome ↔ remember = true)
    ∧ (∀ c, resp.cookie = some c →
        c.name = "refreshToken" ∧ c.value.kind = "refresh"
        ∧ c.value.claims.secureStatus = none
        ∧ c.httpOnly = true ∧ c.secure = reqSecure
        ∧ c.maxAge = cookieMaxAge * 1000) := by
  cases error
  case true => simp [authCallback] at h
  case false =>
  cases user with
  | none => simp [authCallback] at h
  | some u =>
    by_cases hs : u.isSuspended = true
    · simp [authCallback, hs] at h
    · cases remember with
      | false =>
        simp only [authCallback, Bool.false_eq_true, if_false, hs,
          Except.ok.injEq] at h
        subst h
        simp [jwtGenerate]
      | true =>
        simp only [authCallback, Bool.false_eq_true, if_false, hs,
          if_true, Except.ok.injEq] at h
        subst h
        simp [jwtGenerate, User.getClaims]

/-- Witness for C4 (amended): a remembered refresh-token grant over
TLS yields the access token in the body and a secure http-only
refresh cookie with the configured max-age. -/
theorem token_minting_response_witness :
    (authCallback "refreshToken" true false 2 9 600 true false
        (some ⟨3, ["user"], false⟩) =
      .ok ⟨⟨"access", ⟨"3", ["user"], none⟩⟩,
           some ⟨"refreshToken", ⟨"refresh", ⟨"3", ["user"], none⟩⟩,
                 600000, true, true⟩⟩)
    ∧ ((⟨⟨"access", ⟨"3", ["user"], none⟩⟩,
         some ⟨"refreshToken", ⟨"refresh", ⟨"3", ["user"], none⟩⟩,
               600000, true, true⟩⟩ :
          AuthResponse).accessToken.kind = "access"
      ∧ (((⟨⟨"access", ⟨"3", ["user"], none⟩⟩,
            some ⟨"refreshToken", ⟨"refresh", ⟨"3", ["user"], none⟩⟩,
                  600000, true, true⟩⟩ :
          AuthResponse).cookie).isSome ↔ true = true)
      ∧ (∀ c, (⟨⟨"access", ⟨"3", ["user"], none⟩⟩,
            some ⟨"refreshToken", ⟨"refresh", ⟨"3", ["user"], none⟩⟩,
                  600000, true, true⟩⟩ :
          AuthResponse).cookie = some c →
          c.name = "refreshToken" ∧ c.value.kind = "refresh"
          ∧ c.value.claims.secureStatus = none
          ∧ c.httpOnly = true ∧ c.secure = true
          ∧ c.maxAge = 600 * 1000)) :=
  ⟨by rfl,
    token_minting_response "refreshToken" true false 2 9 600 true
      false (some ⟨3, ["user"], false⟩)
      ⟨⟨"access", ⟨"3", ["user"], none⟩⟩,
       some ⟨"refreshToken", ⟨"refresh", ⟨"3", ["user"], none⟩⟩,
             600000, true, true⟩⟩ (by rfl)⟩

/-- C3: the `belongsTo` guard passes when the item's owner reference
(resolved to an `_id` when populated) equals the owner's id, fails
with `NotAuthorizedError` when it differs, and when a roles array is
given and the principal holds one of the roles the guard passes
regardless of the ownership comparison. -/
theorem belongs_to_ownership
    (itemKey ownerKey propKey : String) (me : Option User)
    (o : OwnerEnt) (it : ItemEnt) (prop : PropVal)
    (hit : it.lookup propKey = some prop) :
    (prop.resolveId = o._id →
      belongsToMw itemKey ownerKey none propKey me (some o) (some it) =
        .next)
    ∧ (prop.resolveId ≠ o._id →
      belongsToMw itemKey ownerKey none propKey me (some o) (some it) =
        .nextErr .notAuthorized)
    ∧ (∀ r rs (u : User), (r :: rs).any u.hasRole = true →
        ∀ owner item, belongsToMw itemKey ownerKey (some (r :: rs))
          propKey (some u) owner item = .next) := by
  refine ⟨?_, ?_, ?_⟩
  · intro he
    simp [belongsToMw, rolesBypass, hit, he]
  · intro hne
    simp [belongsToMw, rolesBypass, hit, Ne.symm hne]
  · intro r rs u ha owner item
    simp [belongsToMw, rolesBypass, ha]

/-- Witness for C3: a populated owner reference matching the owner's
id passes the guard, and an admin principal bypasses the guard even
with nothing else loaded. -/
theorem belongs_to_ownership_witness :
    belongsToMw "album" "me" none "user" none (some ⟨5⟩)
      (some [("user", PropVal.populated 5)]) = .next
    ∧ belongsToMw "album" "me" (some ["admin"]) "user"
        (some ⟨9, ["admin"], false⟩) none none = .next :=
  ⟨(belongs_to_ownership "album" "me" "user" none ⟨5⟩
      [("user", PropVal.populated 5)] (PropVal.populated 5)
      (by rfl)).1 (by rfl),
   (belongs_to_ownership "album" "me" "user" none ⟨5⟩
      [("user", PropVal.populated 5)] (PropVal.populated 5)
      (by rfl)).2.2 "admin" [] ⟨9, ["admin"], false⟩ (by decide)
      none none⟩

/-- C9 counterexample: with an EMPTY roles array and no principal
attached, `Array.prototype.some` never invokes its callback, so the
guard does not throw a `TypeError`: it proceeds and fails with the
typed `ServerError` for the unloaded owner — refuting the claim that
a given roles array plus a missing principal always yields an untyped
`TypeError`. -/
theorem belongs_to_empty_roles_no_type_error :
    belongsToMw "album" "me" (some []) "user" none none none =
      .nextErr (.serverError "Owner of type me has not been loaded") :=
  by rfl

/-- C9 (amended): the role-bypass test is evaluated before the
presence checks; when a NON-EMPTY roles array is given and no
principal is attached, the guard throws an untyped JavaScript
`TypeError` instead of a typed error, and when the principal holds one
of the roles the guard passes even though owner and item were never
loaded. -/
theorem belongs_to_roles_checked_first
    (itemKey ownerKey propKey : String) (r : String) (rs : List String) :
    (∀ owner item, belongsToMw itemKey ownerKey (some (r :: rs)) propKey
        none owner item = .jsTypeError)
    ∧ (∀ (u : User) owner item, (r :: rs).any u.hasRole = true →
        belongsToMw itemKey ownerKey (some (r :: rs)) propKey (some u)
          owner item = .next) := by
  constructor
  · intro owner item
    simp [belongsToMw, rolesBypass]
  · intro u owner item ha
    simp [belongsToMw, rolesBypass, ha]

/-- Witness for C9 (amended): with roles `["admin"]`, a missing
principal raises the `TypeError`, and an admin principal passes with
owner and item unloaded. -/
theorem belongs_to_roles_checked_first_witness :
    belongsToMw "album" "me" (some ["admin"]) "user" none none none =
      .jsTypeError
    ∧ belongsToMw "album" "me" (some ["admin"]) "user"
        (some ⟨9, ["admin"], false⟩) none none = .next :=
  ⟨(belongs_to_roles_checked_first "album" "me" "user" "admin" []).1
      none none,
   (belongs_to_roles_checked_first "album" "me" "user" "admin" []).2
      ⟨9, ["admin"], false⟩ none none (by decide)⟩

/-- The map `replaceApos` never outputs a typewriter apostrophe. -/
theorem replaceApos_ne (c : Char) : replaceApos c ≠ '\'' := by
  unfold replaceApos
  split
  · decide
  · assumption

/-- The map `replaceDash` never outputs an em-dash. -/
theorem replaceDash_ne (c : Char) : replaceDash c ≠ '—' := by
  unfold replaceDash
  split
  · decide
  · assumption

/-- The map `replaceDash` cannot introduce a typewriter apostrophe. -/
theorem replaceDash_pres_ne (c : Char) (h : c ≠ '\'') :
    replaceDash c ≠ '\'' := by
  unfold replaceDash
  split
  · decide
  · exact h

/-- The map `replaceApos` fixes characters other than the apostrophe. -/
theorem replaceApos_eq_of_ne (c : Char) (h : c ≠ '\'') :
    replaceApos c = c := if_neg h

/-- The map `replaceDash` fixes characters other than the em-dash. -/
theorem replaceDash_eq_of_ne (c : Char) (h : c ≠ '—') :
    replaceDash c = c := if_neg h

/-- Every character surviving `cleanNameList` is neither an
apostrophe, nor an em-dash, nor a removed path separator. -/
theorem mem_cleanNameList (s : List Char) (c : Char)
    (hc : c ∈ cleanNameList s) :
    c ≠ '\'' ∧ c ≠ '—' ∧ keepChar c = true := by
  unfold cleanNameList at hc
  have h1 := List.of_mem_filter hc
  have h2 := List.mem_of_mem_filter hc
  obtain ⟨y, hy, rfl⟩ := List.mem_map.mp h2
  obtain ⟨x, hx, rfl⟩ := List.mem_map.mp hy
  exact ⟨replaceDash_pres_ne _ (replaceApos_ne x), replaceDash_ne _, h1⟩

/-- The character-list form of `cleanName` is idempotent. -/
theorem cleanNameList_idem (s : List Char) :
    cleanNameList (cleanNameList s) = cleanNameList s := by
  have h1 : (cleanNameList s).map replaceApos = cleanNameList s := by
    conv_rhs => rw [← List.map_id (cleanNameList s)]
    exact List.map_congr_left fun c hc =>
      replaceApos_eq_of_ne c (mem_cleanNameList s c hc).1
  have h2 : (cleanNameList s).map replaceDash = cleanNameList s := by
    conv_rhs => rw [← List.map_id (cleanNameList s)]
    exact List.map_congr_left fun c hc =>
      replaceDash_eq_of_ne c (mem_cleanNameList s c hc).2.1
  have h3 : (cleanNameList s).filter keepChar = cleanNameList s :=
    List.filter_eq_self.mpr fun c hc => (mem_cleanNameList s c hc).2.2
  calc cleanNameList (cleanNameList s)
      = (((cleanNameList s).map replaceApos).map replaceDash).filter
          keepChar := rfl
    _ = cleanNameList s := by rw [h1, h2, h3]

/-- C8: the name-canonicalization transform `cleanName` is pure and
idempotent: applying it twice yields the same result as once. -/
theorem cleanName_idempotent (s : String) :
    cleanName (cleanName s) = cleanName s :=
  congrArg String.mk (cleanNameList_idem s.data)

/-- The function `find?` only depends on the predicate's values on the list. -/
theorem find_congr_of_mem {α : Type} {p q : α → Bool} (l : List α)
    (h : ∀ a ∈ l, p a = q a) : l.find? p = l.find? q := by
  induction l with
  | nil => rfl
  | cons a t ih =>
    have ha := h a (List.mem_cons_self a t)
    cases hq : q a with
    | true =>
      rw [List.find?_cons_of_pos t (ha.trans hq),
        List.find?_cons_of_pos t hq]
    | false =>
      rw [List.find?_cons_of_neg t (by simp [ha, hq]),
        List.find?_cons_of_neg t (by simp [hq]),
        ih fun b hb => h b (List.mem_cons_of_mem a hb)]

/-- Restricting the taken-usernames list to the candidates (as the
`$in` query does) does not change membership tests on candidates. -/
theorem contains_filter_candidates (cands existing : List String)
    (c : String) (hc : c ∈ cands) :
    (existing.filter (fun u => cands.contains u)).contains c =
      existing.contains c := by
  unfold List.contains
  by_cases hce : c ∈ existing
  · rw [List.elem_iff.mpr
      (List.mem_filter.mpr ⟨hce, by exact List.elem_iff.mpr hc⟩),
      List.elem_iff.mpr hce]
  · have hl : ¬(List.elem c
        (existing.filter (fun u => cands.contains u)) = true) :=
      fun h => hce (List.mem_filter.mp (List.elem_iff.mp h)).1
    have hr : ¬(List.elem c existing = true) :=
      fun h => hce (List.elem_iff.mp h)
    rw [Bool.not_eq_true] at hl hr
    rw [hl, hr]

/-- The single JavaScript draw `Math.floor(Math.random()*100)+1` lands
in `[1,100]` when `Math.random()` yields a value in `[0,1)`. -/
theorem jsRandomInt_range (x : ℚ) (h0 : 0 ≤ x) (h1 : x < 1) :
    1 ≤ jsRandomInt x ∧ jsRandomInt x ≤ 100 := by
  unfold jsRandomInt
  refine ⟨by omega, ?_⟩
  have hlt : ⌊x * 100⌋ < 100 := by
    apply Int.floor_lt.mpr
    push_cast
    linarith
  omega

/-- Source `uniqueUsername` reduced to a single `find?` over the candidate
list against the full existing-username list. -/
theorem uniqueUsername_eq_find (email : Option String)
    (firstName lastName : String) (x1 x2 x3 x4 x5 : ℚ)
    (existing : List String) :
    uniqueUsername email firstName lastName x1 x2 x3 x4 x5 existing =
      (match (usernameCandidates email firstName lastName
          x1 x2 x3 x4 x5).find? (fun c => !(existing.contains c)) with
       | some u => Except.ok u
       | none =>
          Except.error "Unable to find unique username for user") := by
  simp only [uniqueUsername]
  rw [find_congr_of_mem (usernameCandidates email firstName lastName
    x1 x2 x3 x4 x5) (fun c hc => by
      rw [contains_filter_candidates _ existing c hc])]

/-- C5: the handle generator builds candidates in the order lowercase
email (when present), lowercase `firstName+lastName`, then five
variants suffixed with a draw from `[1,100]`; it returns the first
candidate not among the taken handles and fails (exhausted) exactly
when every candidate is taken. -/
theorem unique_username_generator (email : Option String)
    (firstName lastName : String) (x1 x2 x3 x4 x5 : ℚ)
    (existing : List String) :
    (∀ x : ℚ, 0 ≤ x → x < 1 →
      1 ≤ jsRandomInt x ∧ jsRandomInt x ≤ 100)
    ∧ usernameCandidates email firstName lastName x1 x2 x3 x4 x5 =
        (email.map strToLower).toList ++
        (strToLower (firstName ++ lastName) ::
          [strToLower (firstName ++ lastName) ++ Nat.repr (jsRandomInt x1),
           strToLower (firstName ++ lastName) ++ Nat.repr (jsRandomInt x2),
           strToLower (firstName ++ lastName) ++ Nat.repr (jsRandomInt x3),
           strToLower (firstName ++ lastName) ++ Nat.repr (jsRandomInt x4),
           strToLower (firstName ++ lastName) ++ Nat.repr (jsRandomInt x5)])
    ∧ (∀ u, uniqueUsername email firstName lastName x1 x2 x3 x4 x5
          existing = .ok u ↔
        (usernameCandidates email firstName lastName
          x1 x2 x3 x4 x5).find? (fun c => !(existing.contains c)) =
          some u)
    ∧ (uniqueUsername email firstName lastName x1 x2 x3 x4 x5
          existing =
        .error "Unable to find unique username for user" ↔
        ∀ c ∈ usernameCandidates email firstName lastName
          x1 x2 x3 x4 x5, c ∈ existing) := by
  refine ⟨jsRandomInt_range, ?_, ?_, ?_⟩
  · cases email <;> rfl
  · intro u
    rw [uniqueUsername_eq_find]
    cases hf : (usernameCandidates email firstName lastName
        x1 x2 x3 x4 x5).find? (fun c => !(existing.contains c)) <;>
      simp
  · rw [uniqueUsername_eq_find]
    cases hf : (usernameCandidates email firstName lastName
        x1 x2 x3 x4 x5).find? (fun c => !(existing.contains c)) with
    | none =>
      simp only [List.find?_eq_none] at hf
      simp only [true_iff]
      intro c hc
      have hb := hf c hc
      simp only [Bool.not_eq_true, Bool.not_eq_false'] at hb
      exact List.elem_iff.mp hb
    | some v =>
      have hp := List.find?_some hf
      have hm := List.mem_of_find?_eq_some hf
      simp only [Bool.not_eq_true'] at hp
      constructor
      · intro h
        exact absurd h (by simp)
      · intro hall
        have htrue : existing.contains v = true :=
          List.elem_iff.mpr (hall v hm)
        rw [hp] at htrue
        exact absurd htrue (by simp)

/-- Witness for C5: with `Math.random() = 1/2` every draw is `51`; for
the names `a`/`b` and taken handles `{"ab", "ab51"}` the generator
skips both and no email candidate is present, and the draw bounds hold
at `1/2`. -/
theorem unique_username_generator_witness :
    (1 ≤ jsRandomInt (1/2) ∧ jsRandomInt (1/2) ≤ 100)
    ∧ uniqueUsername none "a" "b" (1/2) (1/2) (1/2) (1/2) (1/2)
        ["ab"] = .ok "ab51" :=
  ⟨(unique_username_generator none "a" "b" (1/2) (1/2) (1/2) (1/2)
      (1/2) ["ab"]).1 (1/2) (by norm_num) (by norm_num),
   ((unique_username_generator none "a" "b" (1/2) (1/2) (1/2) (1/2)
      (1/2) ["ab"]).2.2.1 "ab51").mpr (by
        have h51 : jsRandomInt (1/2) = 51 := by
          norm_num [jsRandomInt]
          decide
        simp only [usernameCandidates, h51]
        decide)⟩

/-- C10: the five suffixed candidates come from five independent
draws, so equal draws make identical suffixed candidates: the
candidate list may contain duplicates (e.g. all draws `1/2` give
`ab51` five times, a non-`Nodup` list), while the returned handle is
always a member of the constructed candidate list. -/
theorem username_candidates_duplicates :
    usernameCandidates none "a" "b" (1/2) (1/2) (1/2) (1/2) (1/2) =
      ["ab", "ab51", "ab51", "ab51", "ab51", "ab51"]
    ∧ ¬(usernameCandidates none "a" "b" (1/2) (1/2) (1/2) (1/2)
          (1/2)).Nodup
    ∧ (∀ (email : Option String) (firstName lastName : String)
        (x1 x2 x3 x4 x5 : ℚ) (existing : List String) (u : String),
        uniqueUsername email firstName lastName x1 x2 x3 x4 x5
          existing = .ok u →
        u ∈ usernameCandidates email firstName lastName
          x1 x2 x3 x4 x5) := by
  have h51 : jsRandomInt (1/2) = 51 := by
    norm_num [jsRandomInt]
    decide
  have hc : usernameCandidates none "a" "b" (1/2) (1/2) (1/2) (1/2)
      (1/2) = ["ab", "ab51", "ab51", "ab51", "ab51", "ab51"] := by
    simp only [usernameCandidates, h51]
    decide
  refine ⟨hc, ?_, ?_⟩
  · rw [hc]
    decide
  · intro email firstName lastName x1 x2 x3 x4 x5 existing u h
    rw [uniqueUsername_eq_find] at h
    cases hf : (usernameCandidates email firstName lastName
        x1 x2 x3 x4 x5).find? (fun c => !(existing.contains c)) with
    | none =>
      rw [hf] at h
      exact absurd h (by simp)
    | some v =>
      rw [hf] at h
      have hv : v = u := by
        simpa using h
      subst hv
      exact List.mem_of_find?_eq_some hf

/-- Witness for C10: with no taken handle matching, the generator
returns the base candidate, which is a member of the candidate
list. -/
theorem username_candidates_duplicates_witness :
    uniqueUsername none "a" "b" (1/2) (1/2) (1/2) (1/2) (1/2) ["x"] =
      .ok "ab"
    ∧ "ab" ∈ usernameCandidates none "a" "b" (1/2) (1/2) (1/2) (1/2)
        (1/2) :=
  have h : uniqueUsername none "a" "b" (1/2) (1/2) (1/2) (1/2) (1/2)
      ["x"] = .ok "ab" := by
    rw [uniqueUsername_eq_find]
    have h51 : jsRandomInt (1/2) = 51 := by
      norm_num [jsRandomInt]
      decide
    simp only [usernameCandidates, h51]
    rfl
  ⟨h, username_candidates_duplicates.2.2 none "a" "b" (1/2) (1/2)
      (1/2) (1/2) (1/2) ["x"] "ab" h⟩

end ExpressSeed
